import Mathlib

/-!
Verification of the attribute-mapping glue in vue-gl-troika-text.

The repository wraps the troika-three-text Text mesh as a declarative
component: ~31 typed props are mirrored onto a mutable Text instance,
layout-affecting changes schedule an asynchronous resync, presentation-only
changes synchronously emit the host redraw signal.

Modelling conventions:
- JavaScript numbers are idealised as exact rationals extended with NaN and
  signed infinities (no binary64 rounding or overflow).
- JavaScript runtime values are the inductive JSVal; code that can throw a
  TypeError is embedded in Except JsErr.
- Source functions are translated twice where useful: once over the
  TypeScript-declared input types (total functions) and once over arbitrary
  runtime values (Except-valued), both directly from the same source lines.
-/

/-- A JavaScript number: NaN, +Infinity / -Infinity, or a finite value
(idealised as an exact rational). -/
inductive JNum where
  | nan : JNum
  | inf : Bool → JNum
  | fin : ℚ → JNum
deriving DecidableEq

/-- Number.isNaN on the number model. -/
def JNum.isNaN : JNum → Bool
  | .nan => true
  | _ => false

/-- A JavaScript runtime value, restricted to the shapes this component can
encounter: null, undefined, booleans, numbers, strings, arrays, and plain
objects whose only observable feature here is an isColor flag. -/
inductive JSVal where
  | null : JSVal
  | undef : JSVal
  | bool : Bool → JSVal
  | num : JNum → JSVal
  | str : String → JSVal
  | arr : List JSVal → JSVal
  | obj : Bool → JSVal

/-- Loose equality with null: JavaScript value == null holds exactly for
null and undefined. -/
def JSVal.isNullish : JSVal → Bool
  | .null => true
  | .undef => true
  | _ => false

/-- The JavaScript typeof operator on the modelled values. -/
def JSVal.typeof : JSVal → String
  | .null => "object"
  | .undef => "undefined"
  | .bool _ => "boolean"
  | .num _ => "number"
  | .str _ => "string"
  | .arr _ => "object"
  | .obj _ => "object"

/-- Reading the isColor property: true only on an object carrying the flag;
on primitives and arrays the access yields undefined, which is falsy.
(Reading a property of null or undefined throws; that case is handled by
the Except-valued validator below, never here.) -/
def JSVal.isColorFlag : JSVal → Bool
  | .obj b => b
  | _ => false

/-- The single runtime error shape this code can produce. -/
inductive JsErr where
  | typeError : JsErr
deriving DecidableEq

/-- Whitespace skipped by parseFloat (StrWhiteSpace). -/
def isJsSpace (c : Char) : Bool :=
  c = ' ' || c = '\t' || c = '\n' || c = '\r' || c = '\x0b' || c = '\x0c' || c = '\xa0'

/-- Value of a list of decimal digit characters. -/
def digitsVal (ds : List Char) : Nat :=
  ds.foldl (fun n c => 10 * n + (c.toNat - 48)) 0

/-- Parse the optional exponent of a decimal literal (after the e / E):
optional sign then at least one digit; with no digit the exponent part is
trailing garbage and is ignored. -/
def parseExponent (cs : List Char) : Option Int :=
  let p : Bool × List Char :=
    match cs with
    | '-' :: r => (true, r)
    | '+' :: r => (false, r)
    | _ => (false, cs)
  let ds := p.2.takeWhile (·.isDigit)
  if ds.isEmpty then none
  else some (if p.1 then -(digitsVal ds : Int) else (digitsVal ds : Int))

/-- JavaScript parseFloat on a string: skip leading whitespace, optional
sign, then the longest prefix matching Infinity or a decimal literal
(digits, optional fraction, optional exponent); trailing characters are
ignored; NaN when no digits were consumed. -/
def parseFloatString (s : String) : JNum :=
  let cs0 := s.toList.dropWhile isJsSpace
  let sgn : Bool × List Char :=
    match cs0 with
    | '-' :: r => (true, r)
    | '+' :: r => (false, r)
    | _ => (false, cs0)
  let neg := sgn.1
  let cs := sgn.2
  if "Infinity".toList.isPrefixOf cs then JNum.inf neg
  else
    let intPart := cs.takeWhile (·.isDigit)
    let rest := cs.dropWhile (·.isDigit)
    let fr : List Char × List Char :=
      match rest with
      | '.' :: r => (r.takeWhile (·.isDigit), r.dropWhile (·.isDigit))
      | _ => ([], rest)
    let fracPart := fr.1
    if intPart.isEmpty && fracPart.isEmpty then JNum.nan
    else
      let m : Nat := digitsVal intPart * 10 ^ fracPart.length + digitsVal fracPart
      let e : Int :=
        match fr.2 with
        | c :: r => if c = 'e' || c = 'E' then (parseExponent r).getD 0 else 0
        | [] => 0
      let sm : Int := if neg then -(m : Int) else (m : Int)
      JNum.fin (if 0 ≤ e
        then mkRat (sm * (10 : Int) ^ e.toNat) (10 ^ fracPart.length)
        else mkRat sm (10 ^ (fracPart.length + (-e).toNat)))

/-- JavaScript parseFloat applied to an arbitrary value: the argument is
converted with ToString and then parsed. parseFloat never throws.
Cases:
- strings are parsed directly (ToString is the identity on strings);
- for a number n, parseFloat (ToString n) recovers n itself: NaN prints as
  "NaN" which parses to NaN, infinities print as "Infinity", and a finite
  number prints as a numeral that parses back to the same value;
- true, false, null, undefined and plain objects print as words with no
  leading digits, hence NaN;
- an array prints as its elements joined by commas, and since a comma
  terminates a numeral, the parse coincides with the parse of the first
  element (NaN for the empty array, whose string is empty). -/
def jsParseFloat : JSVal → JNum
  | .str s => parseFloatString s
  | .num n => n
  | .bool true => parseFloatString "true"
  | .bool false => parseFloatString "false"
  | .null => parseFloatString "null"
  | .undef => parseFloatString "undefined"
  | .obj _ => parseFloatString "[object Object]"
  | .arr [] => JNum.nan
  | .arr (x :: _) => jsParseFloat x

/-- JavaScript String.prototype.split with the one-character separator ",":
cut at every comma, keeping empty pieces; the empty string yields [""]. -/
def splitCommaChars : List Char → List (List Char)
  | [] => [[]]
  | c :: rest =>
      if c = ',' then [] :: splitCommaChars rest
      else
        match splitCommaChars rest with
        | [] => [[c]]
        | piece :: pieces => (c :: piece) :: pieces

/-- String-level wrapper of splitCommaChars. -/
def jsSplitComma (s : String) : List String :=
  (splitCommaChars s.toList).map fun cs => String.mk cs

/-- An element of the TypeScript array type (string | number)[]. -/
inductive StrOrNum where
  | str : String → StrOrNum
  | num : JNum → StrOrNum
deriving DecidableEq

/-- The TypeScript input type of validateFloatArray and parseFloatArray:
string | (string | number)[]. -/
inductive FloatArrayInput where
  | str : String → FloatArrayInput
  | arr : List StrOrNum → FloatArrayInput
deriving DecidableEq

/-- The TypeScript input type of validateColor:
string | number | Color | (string | number)[]. A Color is an object whose
isColor flag is set; the flag is carried to keep the isColor test faithful. -/
inductive ColorInput where
  | str : String → ColorInput
  | num : JNum → ColorInput
  | color : Bool → ColorInput
  | arr : List StrOrNum → ColorInput
deriving DecidableEq

/-- parseFloat applied to a string-or-number element: a string is parsed,
and for a number n the ToString round-trip gives back n (see jsParseFloat). -/
def parseFloatOfStrOrNum : StrOrNum → JNum
  | .str s => parseFloatString s
  | .num n => n

/-- validateFloatArray over its TypeScript input type: split a string on
commas (or take the array as is) and require every element to parse to a
non-NaN number. -/
def validateFloatArray : FloatArrayInput → Bool
  | .arr xs => xs.all fun v => !(parseFloatOfStrOrNum v).isNaN
  | .str s => (jsSplitComma s).all fun p => !(parseFloatString p).isNaN

/-- parseFloatArray over its TypeScript input type: an array keeps numeric
elements as they are and parses string elements; a string is split on
commas and each piece parsed. -/
def parseFloatArray : FloatArrayInput → List JNum
  | .arr xs => xs.map fun item =>
      match item with
      | .num n => n
      | .str s => parseFloatString s
  | .str s => (jsSplitComma s).map parseFloatString

/-- validateColor over its TypeScript input type: the isColor flag, or
typeof number, or typeof string. -/
def validateColor (c : ColorInput) : Bool :=
  (match c with
    | .color b => b
    | _ => false) ||
  (match c with
    | .num _ => true
    | _ => false) ||
  (match c with
    | .str _ => true
    | _ => false)

/-- validateFloatArray over arbitrary runtime values: a non-array value is
given to String.prototype.split, so any value that is neither an array nor
a string throws a TypeError (value.split is not a function). -/
def validateFloatArrayJS : JSVal → Except JsErr Bool
  | .arr xs => .ok (xs.all fun v => !(jsParseFloat v).isNaN)
  | .str s => .ok ((jsSplitComma s).all fun p => !(parseFloatString p).isNaN)
  | _ => .error .typeError

/-- parseFloatArray over arbitrary runtime values: same throwing behaviour
as validateFloatArrayJS; inside an array, non-number elements go through
parseFloat (which never throws). -/
def parseFloatArrayJS : JSVal → Except JsErr JSVal
  | .arr xs => .ok (.arr (xs.map fun item =>
      match item with
      | .num n => .num n
      | other => .num (jsParseFloat other)))
  | .str s => .ok (.arr ((jsSplitComma s).map fun p => JSVal.num (parseFloatString p)))
  | _ => .error .typeError

/-- validateColor over arbitrary runtime values: reading color.isColor
throws a TypeError on null and undefined; every other value yields a
boolean from the isColor flag and the two typeof tests. -/
def validateColorJS : JSVal → Except JsErr Bool
  | .null => .error .typeError
  | .undef => .error .typeError
  | v => .ok (v.isColorFlag || v.typeof == "number" || v.typeof == "string")

/-- nullableParser over runtime values with a pure parser: value == null
(null or undefined) short-circuits to null, otherwise the parser runs. -/
def nullableParser (p : JSVal → JSVal) (v : JSVal) : JSVal :=
  if v.isNullish then JSVal.null else p v

/-- nullableParser instantiated at a parser that may throw. -/
def nullableParserE (p : JSVal → Except JsErr JSVal) (v : JSVal) : Except JsErr JSVal :=
  if v.isNullish then .ok JSVal.null else p v

/-- nullableValidator over runtime values: value == null short-circuits to
true, otherwise the wrapped validator runs (and may throw). -/
def nullableValidatorJS (f : JSVal → Except JsErr Bool) (v : JSVal) : Except JsErr Bool :=
  if v.isNullish then .ok true else f v

/-- The 31 declared attributes of the component (props block). -/
inductive Attr where
  | text | anchorX | anchorY | curveRadius | direction | font | fontSize
  | letterSpacing | lineHeight | maxWidth | overflowWrap | textAlign
  | textIndent | whiteSpace | color | colorRanges | outlineWidth
  | outlineColor | outlineOpacity | outlineBlur | outlineOffsetY
  | outlineOffsetX | strokeWidth | strokeColor | strokeOpacity | fillOpacity
  | depthOffset | clipRect | orientation | glyphGeometryDetail | sdfGlyphSize
deriving DecidableEq

/-- The effects a watch handler performs besides the field write: calling
inst.sync() or emitting the host redraw signal vglObject3d.emit(). -/
inductive Eff where
  | sync : Eff
  | emit : Eff
deriving DecidableEq

/-- The owned troika Text instance: its 31 mirrored fields plus
bookkeeping for the operations invoked on it (sync and dispose calls, and
whether the synccomplete listener is attached). -/
structure RText where
  text : JSVal
  anchorX : JSVal
  anchorY : JSVal
  curveRadius : JSVal
  direction : JSVal
  font : JSVal
  fontSize : JSVal
  letterSpacing : JSVal
  lineHeight : JSVal
  maxWidth : JSVal
  overflowWrap : JSVal
  textAlign : JSVal
  textIndent : JSVal
  whiteSpace : JSVal
  color : JSVal
  colorRanges : JSVal
  outlineWidth : JSVal
  outlineColor : JSVal
  outlineOpacity : JSVal
  outlineBlur : JSVal
  outlineOffsetY : JSVal
  outlineOffsetX : JSVal
  strokeWidth : JSVal
  strokeColor : JSVal
  strokeOpacity : JSVal
  fillOpacity : JSVal
  depthOffset : JSVal
  clipRect : JSVal
  orientation : JSVal
  glyphGeometryDetail : JSVal
  sdfGlyphSize : JSVal
  syncCount : Nat
  disposeCount : Nat
  hasSyncCompleteListener : Bool

/-- The field of the Text instance corresponding to a declared attribute. -/
def fieldOf : Attr → RText → JSVal
  | .text, t => t.text
  | .anchorX, t => t.anchorX
  | .anchorY, t => t.anchorY
  | .curveRadius, t => t.curveRadius
  | .direction, t => t.direction
  | .font, t => t.font
  | .fontSize, t => t.fontSize
  | .letterSpacing, t => t.letterSpacing
  | .lineHeight, t => t.lineHeight
  | .maxWidth, t => t.maxWidth
  | .overflowWrap, t => t.overflowWrap
  | .textAlign, t => t.textAlign
  | .textIndent, t => t.textIndent
  | .whiteSpace, t => t.whiteSpace
  | .color, t => t.color
  | .colorRanges, t => t.colorRanges
  | .outlineWidth, t => t.outlineWidth
  | .outlineColor, t => t.outlineColor
  | .outlineOpacity, t => t.outlineOpacity
  | .outlineBlur, t => t.outlineBlur
  | .outlineOffsetY, t => t.outlineOffsetY
  | .outlineOffsetX, t => t.outlineOffsetX
  | .strokeWidth, t => t.strokeWidth
  | .strokeColor, t => t.strokeColor
  | .strokeOpacity, t => t.strokeOpacity
  | .fillOpacity, t => t.fillOpacity
  | .depthOffset, t => t.depthOffset
  | .clipRect, t => t.clipRect
  | .orientation, t => t.orientation
  | .glyphGeometryDetail, t => t.glyphGeometryDetail
  | .sdfGlyphSize, t => t.sdfGlyphSize

/-- The component's current prop values. -/
structure Props where
  text : JSVal
  anchorX : JSVal
  anchorY : JSVal
  curveRadius : JSVal
  direction : JSVal
  font : JSVal
  fontSize : JSVal
  letterSpacing : JSVal
  lineHeight : JSVal
  maxWidth : JSVal
  overflowWrap : JSVal
  textAlign : JSVal
  textIndent : JSVal
  whiteSpace : JSVal
  color : JSVal
  colorRanges : JSVal
  outlineWidth : JSVal
  outlineColor : JSVal
  outlineOpacity : JSVal
  outlineBlur : JSVal
  outlineOffsetY : JSVal
  outlineOffsetX : JSVal
  strokeWidth : JSVal
  strokeColor : JSVal
  strokeOpacity : JSVal
  fillOpacity : JSVal
  depthOffset : JSVal
  clipRect : JSVal
  orientation : JSVal
  glyphGeometryDetail : JSVal
  sdfGlyphSize : JSVal

/-- Projection of a prop value by attribute. -/
def Props.get (p : Props) : Attr → JSVal
  | .text => p.text
  | .anchorX => p.anchorX
  | .anchorY => p.anchorY
  | .curveRadius => p.curveRadius
  | .direction => p.direction
  | .font => p.font
  | .fontSize => p.fontSize
  | .letterSpacing => p.letterSpacing
  | .lineHeight => p.lineHeight
  | .maxWidth => p.maxWidth
  | .overflowWrap => p.overflowWrap
  | .textAlign => p.textAlign
  | .textIndent => p.textIndent
  | .whiteSpace => p.whiteSpace
  | .color => p.color
  | .colorRanges => p.colorRanges
  | .outlineWidth => p.outlineWidth
  | .outlineColor => p.outlineColor
  | .outlineOpacity => p.outlineOpacity
  | .outlineBlur => p.outlineBlur
  | .outlineOffsetY => p.outlineOffsetY
  | .outlineOffsetX => p.outlineOffsetX
  | .strokeWidth => p.strokeWidth
  | .strokeColor => p.strokeColor
  | .strokeOpacity => p.strokeOpacity
  | .fillOpacity => p.fillOpacity
  | .depthOffset => p.depthOffset
  | .clipRect => p.clipRect
  | .orientation => p.orientation
  | .glyphGeometryDetail => p.glyphGeometryDetail
  | .sdfGlyphSize => p.sdfGlyphSize

/-- The declared prop defaults (props block, source lines 353-383). -/
def defaultProps : Props where
  text := .str ""
  anchorX := .num (.fin 0)
  anchorY := .num (.fin 0)
  curveRadius := .num (.fin 0)
  direction := .str "auto"
  font := .null
  fontSize := .num (.fin (1 / 10))
  letterSpacing := .num (.fin 0)
  lineHeight := .str "normal"
  maxWidth := .num (.inf false)
  overflowWrap := .str "normal"
  textAlign := .str "left"
  textIndent := .num (.fin 0)
  whiteSpace := .str "normal"
  color := .null
  colorRanges := .null
  outlineWidth := .num (.fin 0)
  outlineColor := .num (.fin 0)
  outlineOpacity := .num (.fin 1)
  outlineBlur := .num (.fin 0)
  outlineOffsetY := .num (.fin 0)
  outlineOffsetX := .num (.fin 0)
  strokeWidth := .num (.fin 0)
  strokeColor := .num (.fin 8421504)
  strokeOpacity := .num (.fin 1)
  fillOpacity := .num (.fin 1)
  depthOffset := .num (.fin 0)
  clipRect := .null
  orientation := .str "+x+y"
  glyphGeometryDetail := .num (.fin 1)
  sdfGlyphSize := .null

/-- The result of the inst computed body: new Text() with the library's
declared field defaults, followed by
addEventListener with the synccomplete callback that emits the host
redraw signal. No sync or dispose has been invoked yet. -/
def newText : RText where
  text := .str ""
  anchorX := .num (.fin 0)
  anchorY := .num (.fin 0)
  curveRadius := .num (.fin 0)
  direction := .str "auto"
  font := .null
  fontSize := .num (.fin (1 / 10))
  letterSpacing := .num (.fin 0)
  lineHeight := .str "normal"
  maxWidth := .num (.inf false)
  overflowWrap := .str "normal"
  textAlign := .str "left"
  textIndent := .num (.fin 0)
  whiteSpace := .str "normal"
  color := .null
  colorRanges := .null
  outlineWidth := .num (.fin 0)
  outlineColor := .num (.fin 0)
  outlineOpacity := .num (.fin 1)
  outlineBlur := .num (.fin 0)
  outlineOffsetY := .num (.fin 0)
  outlineOffsetX := .num (.fin 0)
  strokeWidth := .num (.fin 0)
  strokeColor := .num (.fin 8421504)
  strokeOpacity := .num (.fin 1)
  fillOpacity := .num (.fin 1)
  depthOffset := .num (.fin 0)
  clipRect := .null
  orientation := .str "+x+y"
  glyphGeometryDetail := .num (.fin 1)
  sdfGlyphSize := .null
  syncCount := 0
  disposeCount := 0
  hasSyncCompleteListener := true

/-- The per-attribute watch handlers (watch block, source lines 396-520):
each handler writes its attribute's new value into the corresponding field
of the Text instance and then either calls inst.sync() or emits the host
redraw signal. Only the clipRect handler coerces its value, through
nullableParser (parseFloatArray), which can throw on a value outside the
declared prop types. -/
def applyWatch (a : Attr) (v : JSVal) (t : RText) : Except JsErr (RText × List Eff) :=
  match a with
  | .text => .ok ({ t with text := v }, [Eff.sync])
  | .anchorX => .ok ({ t with anchorX := v }, [Eff.sync])
  | .anchorY => .ok ({ t with anchorY := v }, [Eff.sync])
  | .curveRadius => .ok ({ t with curveRadius := v }, [Eff.emit])
  | .direction => .ok ({ t with direction := v }, [Eff.sync])
  | .font => .ok ({ t with font := v }, [Eff.sync])
  | .fontSize => .ok ({ t with fontSize := v }, [Eff.sync])
  | .letterSpacing => .ok ({ t with letterSpacing := v }, [Eff.sync])
  | .lineHeight => .ok ({ t with lineHeight := v }, [Eff.sync])
  | .maxWidth => .ok ({ t with maxWidth := v }, [Eff.sync])
  | .overflowWrap => .ok ({ t with overflowWrap := v }, [Eff.sync])
  | .textAlign => .ok ({ t with textAlign := v }, [Eff.sync])
  | .textIndent => .ok ({ t with textIndent := v }, [Eff.sync])
  | .whiteSpace => .ok ({ t with whiteSpace := v }, [Eff.sync])
  | .color => .ok ({ t with color := v }, [Eff.emit])
  | .colorRanges => .ok ({ t with colorRanges := v }, [Eff.sync])
  | .outlineWidth => .ok ({ t with outlineWidth := v }, [Eff.emit])
  | .outlineColor => .ok ({ t with outlineColor := v }, [Eff.emit])
  | .outlineOpacity => .ok ({ t with outlineOpacity := v }, [Eff.emit])
  | .outlineBlur => .ok ({ t with outlineBlur := v }, [Eff.emit])
  | .outlineOffsetX => .ok ({ t with outlineOffsetX := v }, [Eff.emit])
  | .outlineOffsetY => .ok ({ t with outlineOffsetY := v }, [Eff.emit])
  | .strokeWidth => .ok ({ t with strokeWidth := v }, [Eff.emit])
  | .strokeColor => .ok ({ t with strokeColor := v }, [Eff.emit])
  | .strokeOpacity => .ok ({ t with strokeOpacity := v }, [Eff.emit])
  | .fillOpacity => .ok ({ t with fillOpacity := v }, [Eff.emit])
  | .depthOffset => .ok ({ t with depthOffset := v }, [Eff.emit])
  | .clipRect =>
      (nullableParserE parseFloatArrayJS v).map fun cr => ({ t with clipRect := cr }, [Eff.emit])
  | .orientation => .ok ({ t with orientation := v }, [Eff.emit])
  | .glyphGeometryDetail => .ok ({ t with glyphGeometryDetail := v }, [Eff.emit])
  | .sdfGlyphSize => .ok ({ t with sdfGlyphSize := v }, [Eff.sync])

/-- The immediate watcher on inst (source lines 522-558): on creation of
the Text instance, every current prop value is written into the instance
(clipRect through nullableParser (parseFloatArray)) and a single sync()
call is made. -/
def instImmediateHandler (p : Props) (t : RText) : Except JsErr (RText × List Eff) :=
  (nullableParserE parseFloatArrayJS p.clipRect).map fun cr =>
    ({ t with
        text := p.text
        anchorX := p.anchorX
        anchorY := p.anchorY
        curveRadius := p.curveRadius
        direction := p.direction
        font := p.font
        fontSize := p.fontSize
        letterSpacing := p.letterSpacing
        lineHeight := p.lineHeight
        maxWidth := p.maxWidth
        overflowWrap := p.overflowWrap
        textAlign := p.textAlign
        textIndent := p.textIndent
        whiteSpace := p.whiteSpace
        color := p.color
        colorRanges := p.colorRanges
        outlineWidth := p.outlineWidth
        outlineColor := p.outlineColor
        outlineOpacity := p.outlineOpacity
        outlineBlur := p.outlineBlur
        outlineOffsetX := p.outlineOffsetX
        outlineOffsetY := p.outlineOffsetY
        strokeWidth := p.strokeWidth
        strokeColor := p.strokeColor
        strokeOpacity := p.strokeOpacity
        fillOpacity := p.fillOpacity
        depthOffset := p.depthOffset
        clipRect := cr
        orientation := p.orientation
        glyphGeometryDetail := p.glyphGeometryDetail
        sdfGlyphSize := p.sdfGlyphSize },
     [Eff.sync])

/-- The component's reactive state as seen by this verification: current
prop values, the cached result of the inst computed property (none before
first access), how many Text instances have been constructed, and how many
times the host redraw signal vglObject3d.emit() has fired. -/
structure CompState where
  props : Props
  instCache : Option RText
  constructCount : Nat
  emitCount : Nat

/-- Modelled from the spec: the host framework's computed-property caching
for inst ("lazily constructs one underlying renderable-text object per
component instance", "created on first access"). The first access runs the
computed body (newText, with the synccomplete listener attached); later
accesses return the cached instance. -/
def getInst (st : CompState) : CompState × RText :=
  match st.instCache with
  | some t => (st, t)
  | none =>
      ({ st with instCache := some newText, constructCount := st.constructCount + 1 }, newText)

/-- Interpret the effects of a handler: inst.sync() bumps the sync count of
the Text instance, vglObject3d.emit() bumps the host emit count. -/
def applyEffs : List Eff → RText → Nat → RText × Nat
  | [], t, e => (t, e)
  | .sync :: rest, t, e => applyEffs rest { t with syncCount := t.syncCount + 1 } e
  | .emit :: rest, t, e => applyEffs rest t (e + 1)

/-- Modelled from the spec: the host framework invokes the watch handler
synchronously when an attribute's value changes ("the host framework's
reactivity system invokes attribute-change callbacks synchronously on
change"). The handler reads this.inst (first access constructs it), writes
the field and performs its effects. -/
def runWatch (a : Attr) (v : JSVal) (st : CompState) : Except JsErr CompState :=
  let gi := getInst st
  (applyWatch a v gi.2).map fun r =>
    let ae := applyEffs r.2 r.1 gi.1.emitCount
    { gi.1 with instCache := some ae.1, emitCount := ae.2 }

/-- The validators declared on the props (source lines 367, 370, 376, 380):
the three color props carry nullableValidator (validateColor), clipRect
carries nullableValidator (validateFloatArray), all other props have none. -/
def validatorOf : Attr → Option (JSVal → Except JsErr Bool)
  | .color => some (nullableValidatorJS validateColorJS)
  | .outlineColor => some (nullableValidatorJS validateColorJS)
  | .strokeColor => some (nullableValidatorJS validateColorJS)
  | .clipRect => some (nullableValidatorJS validateFloatArrayJS)
  | _ => none

/-- Modelled from the spec: the host framework's prop-update semantics for
a validated prop ("invalid-attribute-value — silently rejected by
validators, prior value retained", "on rejection the prior value is
retained and no mutation occurs"). A value the validator rejects leaves
the whole component state unchanged; an accepted value is stored and the
watch handler runs. -/
def setProp (a : Attr) (v : JSVal) (st : CompState) : Except JsErr CompState :=
  match validatorOf a with
  | some val =>
      match val v with
      | .error e => .error e
      | .ok false => .ok st
      | .ok true => runWatch a v { st with props := setPropVal a v st.props }
  | none => runWatch a v { st with props := setPropVal a v st.props }
where
  setPropVal (a : Attr) (v : JSVal) (p : Props) : Props :=
    match a with
    | .text => { p with text := v }
    | .anchorX => { p with anchorX := v }
    | .anchorY => { p with anchorY := v }
    | .curveRadius => { p with curveRadius := v }
    | .direction => { p with direction := v }
    | .font => { p with font := v }
    | .fontSize => { p with fontSize := v }
    | .letterSpacing => { p with letterSpacing := v }
    | .lineHeight => { p with lineHeight := v }
    | .maxWidth => { p with maxWidth := v }
    | .overflowWrap => { p with overflowWrap := v }
    | .textAlign => { p with textAlign := v }
    | .textIndent => { p with textIndent := v }
    | .whiteSpace => { p with whiteSpace := v }
    | .color => { p with color := v }
    | .colorRanges => { p with colorRanges := v }
    | .outlineWidth => { p with outlineWidth := v }
    | .outlineColor => { p with outlineColor := v }
    | .outlineOpacity => { p with outlineOpacity := v }
    | .outlineBlur => { p with outlineBlur := v }
    | .outlineOffsetX => { p with outlineOffsetX := v }
    | .outlineOffsetY => { p with outlineOffsetY := v }
    | .strokeWidth => { p with strokeWidth := v }
    | .strokeColor => { p with strokeColor := v }
    | .strokeOpacity => { p with strokeOpacity := v }
    | .fillOpacity => { p with fillOpacity := v }
    | .depthOffset => { p with depthOffset := v }
    | .clipRect => { p with clipRect := v }
    | .orientation => { p with orientation := v }
    | .glyphGeometryDetail => { p with glyphGeometryDetail := v }
    | .sdfGlyphSize => { p with sdfGlyphSize := v }

/-- Modelled from the spec: component creation. The immediate watcher on
inst runs at mount ("applies every current attribute value to the freshly
constructed instance immediately"); evaluating this.inst constructs the
Text instance, then the immediate handler writes all fields and syncs. -/
def mount (p : Props) : Except JsErr CompState :=
  let gi := getInst { props := p, instCache := none, constructCount := 0, emitCount := 0 }
  (instImmediateHandler p gi.2).map fun r =>
    let ae := applyEffs r.2 r.1 gi.1.emitCount
    { gi.1 with instCache := some ae.1, emitCount := ae.2 }

/-- The destroyed lifecycle hook (source lines 561-565): access this.inst
(the computed always returns a Text, so the undefined guard passes) and
call dispose() on it. -/
def destroy (st : CompState) : CompState :=
  let gi := getInst st
  { gi.1 with instCache := some { gi.2 with disposeCount := gi.2.disposeCount + 1 } }

/-- The synccomplete event on the Text instance (source lines 389-391):
when the listener registered in the inst computed is attached, the event
emits the host redraw signal. -/
def fireSyncComplete (st : CompState) : CompState :=
  match st.instCache with
  | some t => if t.hasSyncCompleteListener then { st with emitCount := st.emitCount + 1 } else st
  | none => st

/-- The spec-side coercion attached to each attribute ("applying the
attribute's coercion"): clipRect goes through the null-pass-through
float-array parser, every other attribute is copied unchanged. -/
def specCoerce (a : Attr) (v : JSVal) : Except JsErr JSVal :=
  match a with
  | .clipRect => nullableParserE parseFloatArrayJS v
  | _ => .ok v

/-- The value held by an attribute's Text field after its watch handler
runs (error when the handler throws). -/
def fieldAfterWatch (a : Attr) (v : JSVal) (t : RText) : Except JsErr JSVal :=
  (applyWatch a v t).map fun r => fieldOf a r.1

/-- The spec's layout-affecting attributes, as the claims list them:
content, box/alignment/wrap, font, and color-range attributes. -/
def isLayoutAttr : Attr → Bool
  | .text | .anchorX | .anchorY | .direction | .font | .fontSize
  | .letterSpacing | .lineHeight | .maxWidth | .overflowWrap | .textAlign
  | .textIndent | .whiteSpace | .colorRanges => true
  | _ => false

/-- The spec's presentation-only attributes, as the claims list them:
outline/stroke/fill styling, clipping, orientation, curvature, and
geometry-detail attributes. (depthOffset and sdfGlyphSize fall under none
of the spec's named categories and are left out.) -/
def isPresentationAttr : Attr → Bool
  | .outlineWidth | .outlineColor | .outlineOpacity | .outlineBlur
  | .outlineOffsetX | .outlineOffsetY | .strokeWidth | .strokeColor
  | .strokeOpacity | .color | .fillOpacity | .clipRect | .orientation
  | .curveRadius | .glyphGeometryDetail => true
  | _ => false

/-- The component state after mounting with the default props; used by
closed witnesses. -/
def mountedDefault : CompState :=
  (mount defaultProps).toOption.getD
    { props := defaultProps, instCache := none, constructCount := 0, emitCount := 0 }

/-- The result of the immediate inst watcher on the default props; used by
closed witnesses. -/
def immediateDefault : RText × List Eff :=
  (instImmediateHandler defaultProps newText).toOption.getD (newText, [])

theorem fireSync_emits_helper (st : CompState) (t : RText)
    (h1 : st.instCache = some t) (h2 : t.hasSyncCompleteListener = true) :
    (fireSyncComplete st).emitCount = st.emitCount + 1 := by
  simp [fireSyncComplete, h1, h2]

theorem immediate_ok_shape (p : Props) (t : RText) (r : RText × List Eff)
    (h : instImmediateHandler p t = .ok r) :
    r.2 = [Eff.sync] ∧ ∀ a, Except.ok (fieldOf a r.1) = specCoerce a (p.get a) := by
  rcases hc : nullableParserE parseFloatArrayJS p.clipRect with e | cr <;>
    simp [instImmediateHandler, hc, Except.map] at h
  subst h
  refine ⟨rfl, ?_⟩
  intro a
  cases a <;> simp [fieldOf, specCoerce, Props.get, hc]

/-- Claim C1: for every declared attribute, on initial construction and on
every subsequent value change, the new value lands in the corresponding
field of the owned Text instance after the attribute's coercion; in
particular setting clipRect to the string "0,0,1,1" leaves the Text's
clipRect field holding the numeric array [0, 0, 1, 1]. -/
theorem attr_field_mirrors_coercion :
    (∀ a v t, fieldAfterWatch a v t = specCoerce a v) ∧
    (∀ p t r, instImmediateHandler p t = .ok r →
      ∀ a, Except.ok (fieldOf a r.1) = specCoerce a (p.get a)) ∧
    (∀ t, fieldAfterWatch .clipRect (.str "0,0,1,1") t =
      .ok (.arr [.num (.fin 0), .num (.fin 0), .num (.fin 1), .num (.fin 1)])) := by
  refine ⟨?_, ?_, ?_⟩
  · intro a v t
    cases a <;>
      rcases hc : nullableParserE parseFloatArrayJS v with e | cr <;>
        simp [fieldAfterWatch, applyWatch, specCoerce, fieldOf, hc, Except.map]
  · exact fun p t r h => (immediate_ok_shape p t r h).2
  · intro t
    rfl

theorem attr_field_mirrors_coercion_witness :
    Except.ok (fieldOf Attr.fontSize immediateDefault.1) =
      specCoerce Attr.fontSize (defaultProps.get Attr.fontSize) :=
  attr_field_mirrors_coercion.2.1 defaultProps newText immediateDefault rfl Attr.fontSize

theorem layout_effs_helper (a : Attr) (v : JSVal) (t : RText) (r : RText × List Eff)
    (ha : isLayoutAttr a = true) (h : applyWatch a v t = .ok r) :
    r.2 = [Eff.sync] := by
  cases a <;> simp [isLayoutAttr] at ha <;> simp [applyWatch] at h <;> simp [← h]

/-- Claim C2: the handlers are classified as the spec states: each of the
fourteen content, box/alignment/wrap, font, and color-range attributes
calls the asynchronous sync operation (and nothing else), and each
outline/stroke/fill-styling, clipping, orientation, curvature, and
geometry-detail attribute synchronously emits the host redraw signal and
makes no sync call. -/
theorem attr_effect_classification :
    (∀ a v t r, isLayoutAttr a = true → applyWatch a v t = .ok r → r.2 = [Eff.sync]) ∧
    (∀ a v t r, isPresentationAttr a = true → applyWatch a v t = .ok r → r.2 = [Eff.emit]) := by
  constructor
  · exact layout_effs_helper
  · intro a v t r ha h
    cases a <;> simp [isPresentationAttr] at ha <;>
      rcases hc : nullableParserE parseFloatArrayJS v with e | cr <;>
        simp [applyWatch, hc, Except.map] at h <;> simp [← h]

theorem attr_effect_classification_witness :
    ((⟨{ newText with strokeColor := JSVal.null }, [Eff.emit]⟩ : RText × List Eff).2 = [Eff.emit]) :=
  attr_effect_classification.2 Attr.strokeColor JSVal.null newText _ rfl rfl

theorem getInst_preserves_emitCount (st : CompState) :
    (getInst st).1.emitCount = st.emitCount := by
  cases h : st.instCache <;> simp [getInst, h]

/-- Claim C3: a single change of a layout-affecting attribute performs
exactly one sync call and no synchronous emit — at the component level the
host emit count is unchanged and the instance sync count rises by exactly
one — and the host redraw signal fires via the synccomplete listener
afterwards. -/
theorem layout_sync_once_emit_async :
    (∀ a v t r, isLayoutAttr a = true → applyWatch a v t = .ok r → r.2 = [Eff.sync]) ∧
    (∀ a v st st', isLayoutAttr a = true → runWatch a v st = .ok st' →
      st'.emitCount = st.emitCount ∧
      st'.instCache.map RText.syncCount = some ((getInst st).2.syncCount + 1)) ∧
    (∀ st t, st.instCache = some t → t.hasSyncCompleteListener = true →
      (fireSyncComplete st).emitCount = st.emitCount + 1) := by
  refine ⟨layout_effs_helper, ?_, fireSync_emits_helper⟩
  intro a v st st' ha h
  cases a <;> simp [isLayoutAttr] at ha <;>
    simp [runWatch, applyWatch, applyEffs, Except.map] at h <;>
      subst h <;> exact ⟨getInst_preserves_emitCount st, rfl⟩

theorem layout_sync_once_emit_async_witness :
    (({ newText with text := JSVal.str "hi" } : RText), [Eff.sync]).2 = [Eff.sync] :=
  layout_sync_once_emit_async.1 Attr.text (JSVal.str "hi") newText _ rfl rfl

/-- Claim C4: assigning a value of unrecognized shape (a boolean) to any of
the three color-typed attributes is rejected by the validator and leaves
the whole component state — in particular every field of the Text
instance — exactly as it was. -/
theorem invalid_color_value_rejected :
    ∀ (b : Bool) (st : CompState),
      setProp .color (.bool b) st = .ok st ∧
      setProp .outlineColor (.bool b) st = .ok st ∧
      setProp .strokeColor (.bool b) st = .ok st := by
  intro b st
  refine ⟨rfl, rfl, rfl⟩

/-- Claim C5: the validators accept exactly the permitted shapes over
their declared input types: the color validator accepts numbers, strings,
and objects whose isColor flag is set, and rejects everything else
(arrays, objects without the flag); the float-array validator accepts
exactly strings whose comma-separated pieces all parse to non-NaN numbers
and sequences whose elements all parse to non-NaN numbers. -/
theorem validator_accepts_exactly_permitted_shapes :
    (∀ c : ColorInput, validateColor c = true ↔
      ((∃ n, c = .num n) ∨ (∃ s, c = .str s) ∨ c = .color true)) ∧
    (∀ s : String, validateFloatArray (.str s) = true ↔
      ∀ piece ∈ jsSplitComma s, (parseFloatString piece).isNaN = false) ∧
    (∀ xs : List StrOrNum, validateFloatArray (.arr xs) = true ↔
      ∀ x ∈ xs, (parseFloatOfStrOrNum x).isNaN = false) := by
  refine ⟨?_, ?_, ?_⟩
  · intro c
    cases c <;> simp [validateColor]
  · intro s
    simp [validateFloatArray, List.all_eq_true]
  · intro xs
    simp [validateFloatArray, List.all_eq_true]

/-- Claim C6 counterexample: nullableParser does not map every non-null
value through the parser — undefined is also caught by the loose null
check and mapped to null instead of being passed to the parser. -/
theorem nullableParser_undef_counterexample :
    nullableParser (fun _ => JSVal.str "x") JSVal.undef = JSVal.null ∧
    (fun _ => JSVal.str "x") JSVal.undef ≠ JSVal.null :=
  ⟨rfl, fun h => JSVal.noConfusion h⟩

/-- Claim C6 (amended): nullableParser maps null and undefined to null
(the check is a loose equality with null) and every other value x to p x;
in particular the font and clipRect watch handlers set the Text field to
null when the attribute is set to null. -/
theorem nullableParser_nullish_passthrough :
    (∀ p, nullableParser p JSVal.null = JSVal.null) ∧
    (∀ p, nullableParser p JSVal.undef = JSVal.null) ∧
    (∀ p v, v ≠ JSVal.null → v ≠ JSVal.undef → nullableParser p v = p v) ∧
    (∀ t, fieldAfterWatch .font JSVal.null t = .ok JSVal.null) ∧
    (∀ t, fieldAfterWatch .clipRect JSVal.null t = .ok JSVal.null) := by
  refine ⟨fun p => rfl, fun p => rfl, ?_, fun t => rfl, fun t => rfl⟩
  intro p v h1 h2
  cases v <;> simp_all [nullableParser, JSVal.isNullish]

theorem nullableParser_nullish_passthrough_witness :
    nullableParser (fun w => w) (JSVal.str "a") = JSVal.str "a" :=
  nullableParser_nullish_passthrough.2.2.1 (fun w => w) (JSVal.str "a")
    (fun h => JSVal.noConfusion h) (fun h => JSVal.noConfusion h)

/-- Claim C7: exactly one Text instance exists per live component, created
on first access of the inst computed property and disposed exactly once on
teardown; constructing a component and immediately destroying it disposes
the instance exactly once. -/
theorem single_instance_lifecycle :
    (∀ p st, mount p = .ok st →
      st.constructCount = 1 ∧
      st.instCache.map RText.disposeCount = some 0 ∧
      (destroy st).constructCount = 1 ∧
      (destroy st).instCache.map RText.disposeCount = some 1) ∧
    (∀ st t, st.instCache = some t → getInst st = (st, t)) := by
  constructor
  · intro p st h
    rcases hc : nullableParserE parseFloatArrayJS p.clipRect with e | cr <;>
      simp [mount, getInst, instImmediateHandler, hc, Except.map, applyEffs] at h
    subst h
    refine ⟨rfl, rfl, rfl, rfl⟩
  · intro st t h
    simp [getInst, h]

theorem single_instance_lifecycle_witness :
    mountedDefault.constructCount = 1 ∧
    mountedDefault.instCache.map RText.disposeCount = some 0 ∧
    (destroy mountedDefault).constructCount = 1 ∧
    (destroy mountedDefault).instCache.map RText.disposeCount = some 1 :=
  single_instance_lifecycle.1 defaultProps mountedDefault rfl

/-- Claim C8: on construction of the Text instance the synccomplete
listener that re-emits the host redraw signal is registered, every declared
attribute's current value is applied to the fresh instance, and a single
sync call is made. -/
theorem construction_applies_all_then_syncs :
    (∀ p t r, instImmediateHandler p t = .ok r →
      r.2 = [Eff.sync] ∧ ∀ a, Except.ok (fieldOf a r.1) = specCoerce a (p.get a)) ∧
    newText.hasSyncCompleteListener = true ∧
    (∀ st t, st.instCache = some t → t.hasSyncCompleteListener = true →
      (fireSyncComplete st).emitCount = st.emitCount + 1) :=
  ⟨immediate_ok_shape, rfl, fireSync_emits_helper⟩

theorem construction_applies_all_then_syncs_witness :
    immediateDefault.2 = [Eff.sync] :=
  (construction_applies_all_then_syncs.1 defaultProps newText immediateDefault rfl).1

/-- Claim C9 counterexample: the wrapped float-array validator is not total
over all input values — a plain number reaches the split call and throws a
TypeError. -/
theorem wrapped_array_validator_throws_counterexample :
    nullableValidatorJS validateFloatArrayJS (JSVal.num (JNum.fin 5)) =
      .error .typeError := rfl

/-- Claim C9 (amended): the null check runs before any property access, so
both wrapped validators return true on null and undefined without touching
the value; the wrapped color validator returns a boolean on every input
value; the wrapped float-array validator and the wrapped float-array
coercion return normally on every value of the declared input types
(strings and arrays) and on null and undefined, but not on other values. -/
theorem validators_total_on_declared_inputs :
    (∀ v, ∃ b, nullableValidatorJS validateColorJS v = .ok b) ∧
    nullableValidatorJS validateFloatArrayJS JSVal.null = .ok true ∧
    nullableValidatorJS validateFloatArrayJS JSVal.undef = .ok true ∧
    (∀ s, ∃ b, nullableValidatorJS validateFloatArrayJS (JSVal.str s) = .ok b) ∧
    (∀ xs, ∃ b, nullableValidatorJS validateFloatArrayJS (JSVal.arr xs) = .ok b) ∧
    nullableParserE parseFloatArrayJS JSVal.null = .ok JSVal.null ∧
    nullableParserE parseFloatArrayJS JSVal.undef = .ok JSVal.null ∧
    (∀ s, ∃ w, nullableParserE parseFloatArrayJS (JSVal.str s) = .ok w) ∧
    (∀ xs, ∃ w, nullableParserE parseFloatArrayJS (JSVal.arr xs) = .ok w) := by
  refine ⟨?_, rfl, rfl, fun s => ⟨_, rfl⟩, fun xs => ⟨_, rfl⟩, rfl, rfl,
    fun s => ⟨_, rfl⟩, fun xs => ⟨_, rfl⟩⟩
  intro v
  cases v <;> exact ⟨_, rfl⟩

/-- Claim C10: the float-array validator is sound for the parser — every
accepted input parses to an array with no NaN entry — and an array whose
elements are all numbers is returned by the parser unchanged. -/
theorem validator_sound_for_parsing :
    (∀ v : FloatArrayInput, validateFloatArray v = true →
      ∀ n ∈ parseFloatArray v, n.isNaN = false) ∧
    (∀ xs : List JNum, parseFloatArray (.arr (xs.map StrOrNum.num)) = xs) := by
  constructor
  · intro v hv
    cases v with
    | str s =>
        simp [validateFloatArray, List.all_eq_true] at hv
        intro n hn
        simp [parseFloatArray, List.mem_map] at hn
        obtain ⟨piece, hp, rfl⟩ := hn
        exact hv piece hp
    | arr xs =>
        simp [validateFloatArray, List.all_eq_true] at hv
        intro n hn
        simp [parseFloatArray, List.mem_map] at hn
        obtain ⟨x, hx, rfl⟩ := hn
        have hx2 := hv x hx
        cases x <;> simpa [parseFloatOfStrOrNum] using hx2
  · intro xs
    induction xs with
    | nil => rfl
    | cons n ns ih => simpa [parseFloatArray] using ih

theorem validator_sound_for_parsing_witness :
    (parseFloatString "1").isNaN = false :=
  validator_sound_for_parsing.1 (.str "1,2") rfl (parseFloatString "1")
    (List.mem_cons_self _ _)
